import Mathlib

/-!
Shallow embedding of `getting-started/inference/local_inference/chat_completion/chat_completion.py`
(the `main` function) from the llama-cookbook repository fragment.

The script is a sequential pipeline: resolve dialogs (prompt file / stdin),
seed the RNG, load the model and tokenizer, then for each dialog run an input
safety screen, generate, run an output safety screen, and print.  External
collaborators (the model, the tokenizer, the JSON parser, the filesystem and
the individual safety-checker backends) are opaque: they live in an `Env`
record of abstract functions.  The script's own control flow, its exact
printed strings, its exit decisions and the exact set of keyword arguments it
passes to `model.generate` are embedded faithfully, as a function from the
command-line parameters and the environment to a trace of observable events
paired with an exit status.
-/

namespace ChatCompletion

/-- A single turn of a dialog: the Python dict with keys `role` and `content`. -/
structure Turn where
  role : String
  content : String
  deriving DecidableEq, Repr

/-- A dialog is an ordered list of turns. -/
abbrev Dialog := List Turn

/-- An opaque safety-checker backend.  Calling it on a text yields the Python
triple `(method, is_safe, report)`; the identifier is fixed per backend and the
verdict and report are arbitrary functions of the screened text. -/
structure Checker where
  method : String
  verdict : String → Bool
  reportOf : String → String

/-- The Python triple `(method, is_safe, report)` returned by one checker call. -/
structure SafetyResult where
  method : String
  is_safe : Bool
  report : String
  deriving DecidableEq, Repr

/-- Calling one checker on a text (`check(text)` in the source). -/
def runCheck (c : Checker) (text : String) : SafetyResult :=
  { method := c.method, is_safe := c.verdict text, report := c.reportOf text }

/-- The exact keyword arguments the source passes to `model.generate`
(chat_completion.py lines 107-119): `input_ids`, `attention_mask`,
`max_new_tokens`, `do_sample`, `top_p`, `temperature`, `use_cache`, `top_k`,
`repetition_penalty`, `length_penalty` and the forwarded `**kwargs`.
Note that the source does not pass `min_new_tokens`. -/
structure GenArgs where
  input_ids : List Int
  attention_mask : List Int
  max_new_tokens : Nat
  do_sample : Bool
  top_p : Rat
  temperature : Rat
  use_cache : Bool
  top_k : Nat
  repetition_penalty : Rat
  length_penalty : Int
  kwargs : List (String × String)
  deriving DecidableEq, Repr

/-- Observable events of a run: printed lines, the RNG seeding, the external
model/tokenizer loads, every safety-checker invocation and every generation
call with its exact arguments. -/
inductive Event where
  | printLine (s : String)
  | printDialogs (ds : List Dialog)
  | setSeed (seed : Int)
  | modelLoad (model_name : String) (quantization : Option String)
      (use_fast_kernels : Bool) (kwargs : List (String × String))
  | peftLoad (peft_model : String)
  | tokenizerLoad (model_name : String)
  | checkerCall (method : String) (text : String)
  | generateCall (args : GenArgs)
  deriving DecidableEq, Repr

/-- How the process ends: fall off the end of `main` (exit code 0), an explicit
`sys.exit(code)`, an uncaught `AssertionError` from the prompt-file assert, or
an uncaught `IndexError` from `dialogs[idx][0]` on an empty dialog.  Uncaught
exceptions terminate a Python process with a non-zero status. -/
inductive ExitStatus where
  | normal
  | exited (code : Nat)
  | assertFailed (msg : String)
  | indexError
  deriving DecidableEq, Repr

/-- Whether the process exit status is non-zero. -/
def ExitStatus.isNonzero : ExitStatus → Bool
  | ExitStatus.normal => false
  | ExitStatus.exited code => code != 0
  | ExitStatus.assertFailed _ => true
  | ExitStatus.indexError => true

/-- The command-line parameters of `main` (chat_completion.py lines 19-41),
with Python floats embedded as rationals and `**kwargs` as a key/value list. -/
structure Params where
  model_name : String
  peft_model : Option String
  quantization : Option String
  max_new_tokens : Nat
  min_new_tokens : Nat
  prompt_file : Option String
  seed : Int
  safety_score_threshold : Rat
  do_sample : Bool
  use_cache : Bool
  top_p : Rat
  temperature : Rat
  top_k : Nat
  repetition_penalty : Rat
  length_penalty : Int
  enable_azure_content_safety : Bool
  enable_sensitive_topics : Bool
  enable_saleforce_content_safety : Bool
  use_fast_kernels : Bool
  enable_llamaguard_content_safety : Bool
  kwargs : List (String × String)

/-- The opaque external world: the filesystem, stdin, the JSON parser, the
four safety-checker backends, and the model runtime (chat template,
generation, decoding). -/
structure Env where
  fileExists : String → Bool
  readDialogs : String → List Dialog
  stdinIsTTY : Bool
  stdinInput : String
  parseJson : String → Option (List Dialog)
  azureChecker : Checker
  sensitiveChecker : Checker
  salesforceChecker : Checker
  llamaguardChecker : Checker
  apply_chat_template : Dialog → List Int
  generate : GenArgs → List Int
  decode : List Int → String

/-- Modelled from the spec: `get_safety_checker` lives in
`llama_cookbook.inference.safety_utils`, which is not part of this source
tree.  Per the spec (section 4.2) it constructs, from the four enable flags,
an ordered list of zero or more checker backends; a disabled flag contributes
no checker, so with all flags off the list is empty. -/
def get_safety_checker (p : Params) (env : Env) : List Checker :=
  (if p.enable_azure_content_safety then [env.azureChecker] else []) ++
  (if p.enable_sensitive_topics then [env.sensitiveChecker] else []) ++
  (if p.enable_saleforce_content_safety then [env.salesforceChecker] else []) ++
  (if p.enable_llamaguard_content_safety then [env.llamaguardChecker] else [])

/-- The list comprehension `[check(text) for check in safety_checker]`
(chat_completion.py lines 86 and 124). -/
def safetyResults (checkers : List Checker) (text : String) : List SafetyResult :=
  checkers.map (fun c => runCheck c text)

/-- The aggregation `all([r[1] for r in safety_results])`
(chat_completion.py lines 87 and 125). -/
def areSafe (checkers : List Checker) (text : String) : Bool :=
  (safetyResults checkers text).all (fun r => r.is_safe)

/-- The reporting loop `for method, is_safe, report in safety_results: if not
is_safe: print(method); print(report)` (chat_completion.py lines 94-97 and
133-136): it iterates over all results and prints identifier and report of
each failing one. -/
def failurePrints (rs : List SafetyResult) : List Event :=
  rs.foldr
    (fun r acc =>
      if r.is_safe then acc
      else Event.printLine r.method :: Event.printLine r.report :: acc)
    []

/-- The arguments of the `model.generate` call for one chat
(chat_completion.py lines 107-119): `tokens` is the templated chat,
`attention_mask = torch.ones_like(tokens)`, and the named sampling parameters
plus `**kwargs`.  `min_new_tokens` does not appear in the call. -/
def genArgsOf (p : Params) (chat : List Int) : GenArgs :=
  { input_ids := chat
    attention_mask := List.replicate chat.length 1
    max_new_tokens := p.max_new_tokens
    do_sample := p.do_sample
    top_p := p.top_p
    temperature := p.temperature
    use_cache := p.use_cache
    top_k := p.top_k
    repetition_penalty := p.repetition_penalty
    length_penalty := p.length_penalty
    kwargs := p.kwargs }

/-- `tokenizer.decode(model.generate(...)[0], skip_special_tokens=True)`
for one chat (chat_completion.py lines 107-121). -/
def outputTextOf (p : Params) (env : Env) (chat : List Int) : String :=
  env.decode (env.generate (genArgsOf p chat))

/-- Outcome of one iteration of the dialog loop: continue to the next dialog,
`sys.exit(1)`, or an uncaught `IndexError`; each carries the events emitted
before the iteration ended. -/
inductive StepResult where
  | ok (events : List Event)
  | exit (events : List Event)
  | crash (events : List Event)
  deriving DecidableEq, Repr

/-- The events a step emitted, whatever its outcome. -/
def StepResult.events : StepResult → List Event
  | StepResult.ok evs => evs
  | StepResult.exit evs => evs
  | StepResult.crash evs => evs

/-- Whether a step continued to the next dialog. -/
def StepResult.isOk : StepResult → Bool
  | StepResult.ok _ => true
  | _ => false

/-- Whether a step ended in an uncaught `IndexError`. -/
def StepResult.isCrash : StepResult → Bool
  | StepResult.crash _ => true
  | _ => false

/-- The checker-invocation events of screening one text with a checker list:
one call per enabled checker, in list order, all on the same text. -/
def checkCallEvents (checkers : List Checker) (text : String) : List Event :=
  checkers.map (fun c => Event.checkerCall c.method text)

/-- The events of the unsafe-input branch (chat_completion.py lines 92-98):
the checker calls on the prompt, the unsafe message, the failing identifiers
and reports, and the skip message; `sys.exit(1)` follows. -/
def unsafeInputEvents (checkers : List Checker) (prompt : String) : List Event :=
  checkCallEvents checkers prompt ++
  (Event.printLine "User prompt deemed unsafe." ::
    failurePrints (safetyResults checkers prompt)) ++
  [Event.printLine "Skipping the inferece as the prompt is not safe."]

/-- The events of a safe-input iteration (chat_completion.py lines 88-91 and
100-136): the checker calls on the prompt, the safe-prompt echo, exactly one
generation call, the checker calls on the decoded output, and either the safe
output echo or the unsafe-output report block. -/
def okStepEvents (p : Params) (env : Env) (chat : List Int)
    (checkers : List Checker) (prompt : String) : List Event :=
  checkCallEvents checkers prompt ++
  [Event.printLine "User prompt deemed safe.",
   Event.printLine ("User prompt:\n " ++ prompt),
   Event.printLine "\n==================================\n",
   Event.generateCall (genArgsOf p chat)] ++
  checkCallEvents checkers (outputTextOf p env chat) ++
  (if areSafe checkers (outputTextOf p env chat) then
    [Event.printLine "User input and model output deemed safe.",
     Event.printLine ("Model output:\n" ++ outputTextOf p env chat),
     Event.printLine "\n==================================\n"]
  else
    Event.printLine "Model output deemed unsafe." ::
      failurePrints (safetyResults checkers (outputTextOf p env chat)))

/-- One iteration of the dialog loop (chat_completion.py lines 79-136) for the
dialog `dialogs[idx]` and its templated chat `chats[idx]`.

The source rebuilds the checker list each iteration (lines 80-84), then
evaluates `[check(dialogs[idx][0]["content"]) for check in safety_checker]`
(line 86).  On an empty dialog, `dialogs[idx][0]` raises `IndexError` inside
the first comprehension body — unless the checker list is empty, in which case
the body is never evaluated, `all([])` is `True`, the safe message is printed,
and the echo `print("User prompt:\n", dialogs[idx][0]["content"])` (line 90)
raises the `IndexError` instead.  On a non-empty dialog the first turn's
content is screened; if any checker flags it the failing identifiers and
reports are printed and the process exits with status 1 (line 99); otherwise
generation runs, the decoded output is screened, and the step continues
whether or not the output was flagged. -/
def processDialog (p : Params) (env : Env) (dialog : Dialog) (chat : List Int) :
    StepResult :=
  let checkers := get_safety_checker p env
  match dialog.head? with
  | none =>
    if checkers.isEmpty then
      StepResult.crash [Event.printLine "User prompt deemed safe."]
    else
      StepResult.crash []
  | some t =>
    if areSafe checkers t.content then
      StepResult.ok (okStepEvents p env chat checkers t.content)
    else
      StepResult.exit (unsafeInputEvents checkers t.content)

/-- The events of the loop iteration for one (dialog, chat) pair. -/
def stepEvents (p : Params) (env : Env) (x : Dialog × List Int) : List Event :=
  (processDialog p env x.1 x.2).events

/-- The dialog loop (chat_completion.py lines 79-136): iterate the steps in
order; an `ok` step's events are followed by the rest of the loop, an `exit`
step ends the process with `sys.exit(1)`, a `crash` step ends it with an
uncaught `IndexError`.  Falling off the end returns normally (exit code 0). -/
def runLoop (p : Params) (env : Env) :
    List (Dialog × List Int) → List Event × ExitStatus
  | [] => ([], ExitStatus.normal)
  | x :: rest =>
    match processDialog p env x.1 x.2 with
    | StepResult.ok evs =>
      let r := runLoop p env rest
      (evs ++ r.1, r.2)
    | StepResult.exit evs => (evs, ExitStatus.exited 1)
    | StepResult.crash evs => (evs, ExitStatus.indexError)

/-- The concatenated step events of a list of loop iterations. -/
def tracesOf (p : Params) (env : Env) (xs : List (Dialog × List Int)) :
    List Event :=
  xs.foldr (fun x acc => stepEvents p env x ++ acc) []

/-- Dialog resolution (chat_completion.py lines 42-58): a provided prompt file
must exist (`assert os.path.exists(prompt_file)`, an `AssertionError`
otherwise) and is read by the external `read_dialogs_from_file`; with no file,
piped stdin is joined and JSON-parsed, a parse failure printing a diagnostic
and calling `sys.exit(1)`; with no piped input either, a "no input" diagnostic
is printed and `sys.exit(1)` is called. -/
def resolveDialogs (p : Params) (env : Env) :
    (List Event × ExitStatus) ⊕ List Dialog :=
  match p.prompt_file with
  | some path =>
    if env.fileExists path then Sum.inr (env.readDialogs path)
    else
      Sum.inl ([], ExitStatus.assertFailed
        ("Provided Prompt file does not exist " ++ path))
  | none =>
    if !env.stdinIsTTY then
      match env.parseJson env.stdinInput with
      | some ds => Sum.inr ds
      | none =>
        Sum.inl
          ([Event.printLine
              "Could not parse json from stdin. Please provide a json file with the user prompts. Exiting."],
            ExitStatus.exited 1)
    else
      Sum.inl
        ([Event.printLine "No user prompt provided. Exiting."],
          ExitStatus.exited 1)

/-- The events between dialog resolution and the loop (chat_completion.py
lines 60-76): echo the dialogs and a separator, seed the RNG, load the model
(and the PEFT adapter when given) and the tokenizer. -/
def preEvents (p : Params) (dialogs : List Dialog) : List Event :=
  [Event.printDialogs dialogs,
   Event.printLine "\n==================================\n",
   Event.setSeed p.seed,
   Event.modelLoad p.model_name p.quantization p.use_fast_kernels p.kwargs] ++
  (match p.peft_model with
   | some pm => [Event.peftLoad pm]
   | none => []) ++
  [Event.tokenizerLoad p.model_name]

/-- The whole `main` function (chat_completion.py lines 19-136): resolve the
dialogs, emit the pre-loop events, template every dialog
(`chats = [tokenizer.apply_chat_template(dialog) for dialog in dialogs]`),
then run the dialog loop over `enumerate(chats)` with index-aligned access to
`dialogs`. -/
def mainRun (p : Params) (env : Env) : List Event × ExitStatus :=
  match resolveDialogs p env with
  | Sum.inl e => e
  | Sum.inr dialogs =>
    let chats := dialogs.map env.apply_chat_template
    let r := runLoop p env (dialogs.zip chats)
    (preEvents p dialogs ++ r.1, r.2)

/-- Number of generation calls in a trace. -/
def genCount : List Event → Nat
  | [] => 0
  | Event.generateCall _ :: rest => genCount rest + 1
  | _ :: rest => genCount rest

/-- Whether a trace contains a model-load event. -/
def hasModelLoad (evs : List Event) : Bool :=
  evs.any (fun e =>
    match e with
    | Event.modelLoad _ _ _ _ => true
    | _ => false)

/-- A concrete checker backend for evaluating the embedding on closed runs:
it flags exactly the texts "bad1", "bad2" and "badout". -/
def flagChecker : Checker :=
  { method := "checkerA"
    verdict := fun s => !(s == "bad1" || s == "bad2" || s == "badout")
    reportOf := fun s => "flagged " ++ s }

/-- A concrete environment for evaluating the embedding on closed runs: the
prompt file exists iff `fileOk`, reading it yields `ds`, stdin state is given
by `tty` and `parsed`, all four backends are `flagChecker`, the chat template
is the dialog length, generation echoes its input ids, and decoding always
yields `out`. -/
def demoEnv (ds : List Dialog) (tty : Bool) (parsed : Option (List Dialog))
    (out : String) (fileOk : Bool) : Env :=
  { fileExists := fun _ => fileOk
    readDialogs := fun _ => ds
    stdinIsTTY := tty
    stdinInput := ""
    parseJson := fun _ => parsed
    azureChecker := flagChecker
    sensitiveChecker := flagChecker
    salesforceChecker := flagChecker
    llamaguardChecker := flagChecker
    apply_chat_template := fun d => [Int.ofNat d.length]
    generate := fun args => args.input_ids
    decode := fun _ => out }

/-- Concrete command-line parameters mirroring the source's defaults (only the
Salesforce checker enabled) with a prompt file provided. -/
def demoParams : Params :=
  { model_name := "model"
    peft_model := none
    quantization := none
    max_new_tokens := 256
    min_new_tokens := 0
    prompt_file := some "prompts.json"
    seed := 42
    safety_score_threshold := 1/2
    do_sample := true
    use_cache := true
    top_p := 1
    temperature := 1
    top_k := 50
    repetition_penalty := 1
    length_penalty := 1
    enable_azure_content_safety := false
    enable_sensitive_topics := false
    enable_saleforce_content_safety := true
    use_fast_kernels := false
    enable_llamaguard_content_safety := false
    kwargs := [] }

/-- A one-turn dialog whose prompt the demo checker flags. -/
def dialogBad1 : Dialog := [⟨"user", "bad1"⟩]

/-- A one-turn dialog whose prompt the demo checker accepts. -/
def dialogHello : Dialog := [⟨"user", "hello"⟩]

/-- Demo environment whose prompt file holds one flagged dialog. -/
def envOneBad : Env := demoEnv [dialogBad1] true none "okout" true

/-- Demo environment whose prompt file holds two flagged dialogs. -/
def envTwoBad : Env :=
  demoEnv [dialogBad1, [⟨"user", "bad2"⟩]] true none "okout" true

/-- Demo environment with two safe dialogs and safe generated output. -/
def envSafe : Env :=
  demoEnv [dialogHello, [⟨"user", "word"⟩]] true none "okout" true

/-- Demo environment with one safe dialog whose generated output is flagged. -/
def envBadOut : Env := demoEnv [dialogHello] true none "badout" true

/-- Demo environment in which the prompt file does not exist. -/
def envMissingFile : Env := demoEnv [] true none "okout" false

/-- Demo environment with interactive (tty) stdin and no piped input. -/
def envTTY : Env := demoEnv [] true none "okout" true

/-- Demo environment with piped stdin that fails to parse as JSON. -/
def envStdinBad : Env := demoEnv [] false none "okout" true

/-- Demo parameters with no prompt file given. -/
def pNoFile : Params := { demoParams with prompt_file := none }

/-- Demo parameters with every safety-checker backend disabled. -/
def pNoChecks : Params :=
  { demoParams with enable_saleforce_content_safety := false }

/-- The aggregate verdict is the AND of the individual checkers' verdicts. -/
lemma areSafe_eq_all (checkers : List Checker) (text : String) :
    areSafe checkers text = checkers.all (fun c => c.verdict text) := by
  induction checkers with
  | nil => rfl
  | cons c cs ih =>
    show ((runCheck c text).is_safe && areSafe cs text) = _
    rw [ih]
    rfl

/-- With no enabled checker the aggregate verdict is vacuously safe. -/
lemma areSafe_nil (text : String) : areSafe [] text = true := rfl

lemma genCount_append (a b : List Event) :
    genCount (a ++ b) = genCount a + genCount b := by
  induction a with
  | nil => simp [genCount]
  | cons e rest ih =>
    cases e <;> simp [genCount, ih]
    omega

lemma genCount_checkCallEvents (checkers : List Checker) (text : String) :
    genCount (checkCallEvents checkers text) = 0 := by
  induction checkers with
  | nil => rfl
  | cons c cs ih => simpa [checkCallEvents, genCount] using ih

lemma genCount_failurePrints (rs : List SafetyResult) :
    genCount (failurePrints rs) = 0 := by
  induction rs with
  | nil => rfl
  | cons r rs ih =>
    by_cases h : r.is_safe
    · simpa [failurePrints, h] using ih
    · simpa [failurePrints, h, genCount] using ih

lemma genCount_unsafeInputEvents (checkers : List Checker) (prompt : String) :
    genCount (unsafeInputEvents checkers prompt) = 0 := by
  simp [unsafeInputEvents, genCount_append, genCount_checkCallEvents,
    genCount, genCount_failurePrints]

lemma genCount_okStepEvents (p : Params) (env : Env) (chat : List Int)
    (checkers : List Checker) (prompt : String) :
    genCount (okStepEvents p env chat checkers prompt) = 1 := by
  by_cases h : areSafe checkers (outputTextOf p env chat)
  · simp [okStepEvents, h, genCount_append, genCount_checkCallEvents, genCount]
  · simp [okStepEvents, h, genCount_append, genCount_checkCallEvents,
      genCount, genCount_failurePrints]

/-- Every failing result's identifier and report appear in the report block. -/
lemma failurePrints_mem {rs : List SafetyResult} {r : SafetyResult}
    (hmem : r ∈ rs) (hfail : r.is_safe = false) :
    Event.printLine r.method ∈ failurePrints rs ∧
      Event.printLine r.report ∈ failurePrints rs := by
  induction rs with
  | nil => cases hmem
  | cons x xs ih =>
    rcases List.mem_cons.mp hmem with heq | htail
    · subst heq
      simp [failurePrints, hfail]
    · rcases ih htail with ⟨h1, h2⟩
      by_cases hx : x.is_safe
      · exact ⟨by simpa [failurePrints, hx] using h1,
          by simpa [failurePrints, hx] using h2⟩
      · have hx2 : failurePrints (x :: xs) =
            Event.printLine x.method ::
              Event.printLine x.report :: failurePrints xs := by
          simp [failurePrints, hx]
        rw [hx2]
        exact ⟨List.mem_cons_of_mem _ (List.mem_cons_of_mem _ h1),
          List.mem_cons_of_mem _ (List.mem_cons_of_mem _ h2)⟩

/-- Unfolding the step on a non-empty dialog with an unsafe first turn. -/
lemma processDialog_flagged (p : Params) (env : Env) (dialog : Dialog)
    (chat : List Int) (t : Turn) (hd : dialog.head? = some t)
    (hu : areSafe (get_safety_checker p env) t.content = false) :
    processDialog p env dialog chat =
      StepResult.exit (unsafeInputEvents (get_safety_checker p env) t.content) := by
  simp [processDialog, hd, hu]

/-- Unfolding the step on a non-empty dialog with a safe first turn. -/
lemma processDialog_safe (p : Params) (env : Env) (dialog : Dialog)
    (chat : List Int) (t : Turn) (hd : dialog.head? = some t)
    (hs : areSafe (get_safety_checker p env) t.content = true) :
    processDialog p env dialog chat =
      StepResult.ok
        (okStepEvents p env chat (get_safety_checker p env) t.content) := by
  simp [processDialog, hd, hs]

/-- Unfolding the step on an empty dialog: an `IndexError` crash either way,
after the spurious safe message when no checker is enabled. -/
lemma processDialog_none (p : Params) (env : Env) (dialog : Dialog)
    (chat : List Int) (hd : dialog.head? = none) :
    processDialog p env dialog chat =
      (if (get_safety_checker p env).isEmpty then
        StepResult.crash [Event.printLine "User prompt deemed safe."]
      else StepResult.crash []) := by
  simp [processDialog, hd]

/-- A step that continues emitted exactly one generation call. -/
lemma genCount_of_ok {p : Params} {env : Env} {dialog : Dialog}
    {chat : List Int} {evs : List Event}
    (h : processDialog p env dialog chat = StepResult.ok evs) :
    genCount evs = 1 := by
  cases hd : dialog.head? with
  | none =>
    rw [processDialog_none p env dialog chat hd] at h
    by_cases he : (get_safety_checker p env).isEmpty <;> simp [he] at h
  | some t =>
    by_cases hs : areSafe (get_safety_checker p env) t.content
    · rw [processDialog_safe p env dialog chat t hd hs] at h
      cases h
      exact genCount_okStepEvents p env chat (get_safety_checker p env) t.content
    · rw [processDialog_flagged p env dialog chat t hd
        (Bool.eq_false_iff.mpr hs)] at h
      cases h

/-- A step that exited or crashed emitted no generation call. -/
lemma genCount_of_not_ok {p : Params} {env : Env} {dialog : Dialog}
    {chat : List Int}
    (h : (processDialog p env dialog chat).isOk = false) :
    genCount (processDialog p env dialog chat).events = 0 := by
  cases hd : dialog.head? with
  | none =>
    rw [processDialog_none p env dialog chat hd]
    by_cases he : (get_safety_checker p env).isEmpty <;>
      simp [he, StepResult.events, genCount]
  | some t =>
    by_cases hs : areSafe (get_safety_checker p env) t.content
    · rw [processDialog_safe p env dialog chat t hd hs] at h
      simp [StepResult.isOk] at h
    · rw [processDialog_flagged p env dialog chat t hd
        (Bool.eq_false_iff.mpr hs)]
      simp [StepResult.events, genCount_unsafeInputEvents]

/-- A step that crashed was on an empty dialog: non-empty dialogs never crash. -/
lemma processDialog_not_crash (p : Params) (env : Env) (dialog : Dialog)
    (chat : List Int) (h : dialog ≠ []) :
    (processDialog p env dialog chat).isCrash = false := by
  cases dialog with
  | nil => exact absurd rfl h
  | cons t ts =>
    have ht : (t :: ts : Dialog).head? = some t := rfl
    by_cases hs : areSafe (get_safety_checker p env) t.content
    · rw [processDialog_safe p env (t :: ts) chat t ht hs]
      rfl
    · rw [processDialog_flagged p env (t :: ts) chat t ht
        (Bool.eq_false_iff.mpr hs)]
      rfl

lemma runLoop_cons_ok {p : Params} {env : Env} {x : Dialog × List Int}
    {rest : List (Dialog × List Int)} {evs : List Event}
    (h : processDialog p env x.1 x.2 = StepResult.ok evs) :
    runLoop p env (x :: rest) =
      (evs ++ (runLoop p env rest).1, (runLoop p env rest).2) := by
  simp [runLoop, h]

lemma runLoop_cons_exit {p : Params} {env : Env} {x : Dialog × List Int}
    {rest : List (Dialog × List Int)} {evs : List Event}
    (h : processDialog p env x.1 x.2 = StepResult.exit evs) :
    runLoop p env (x :: rest) = (evs, ExitStatus.exited 1) := by
  simp [runLoop, h]

lemma runLoop_cons_crash {p : Params} {env : Env} {x : Dialog × List Int}
    {rest : List (Dialog × List Int)} {evs : List Event}
    (h : processDialog p env x.1 x.2 = StepResult.crash evs) :
    runLoop p env (x :: rest) = (evs, ExitStatus.indexError) := by
  simp [runLoop, h]

/-- Running the loop past a block of continuing iterations concatenates their
events and defers the status to the remainder. -/
lemma runLoop_append_of_ok (p : Params) (env : Env)
    (pre ys : List (Dialog × List Int))
    (h : ∀ x ∈ pre, (processDialog p env x.1 x.2).isOk = true) :
    runLoop p env (pre ++ ys) =
      (tracesOf p env pre ++ (runLoop p env ys).1, (runLoop p env ys).2) := by
  induction pre with
  | nil => simp [tracesOf]
  | cons x xs ih =>
    have hx := h x (List.mem_cons_self x xs)
    obtain ⟨evs, hevs⟩ : ∃ evs, processDialog p env x.1 x.2 = StepResult.ok evs := by
      cases hp : processDialog p env x.1 x.2 with
      | ok evs => exact ⟨evs, rfl⟩
      | exit evs => rw [hp] at hx; simp [StepResult.isOk] at hx
      | crash evs => rw [hp] at hx; simp [StepResult.isOk] at hx
    have ih2 := ih (fun y hy => h y (List.mem_cons_of_mem x hy))
    rw [List.cons_append, runLoop_cons_ok hevs, ih2]
    simp [tracesOf, stepEvents, hevs, StepResult.events, List.append_assoc]

/-- With every dialog non-empty and input-safe, the loop completes normally
and generates exactly once per dialog. -/
lemma runLoop_all_safe (p : Params) (env : Env)
    (xs : List (Dialog × List Int))
    (h : ∀ x ∈ xs, ∃ t, x.1.head? = some t ∧
      areSafe (get_safety_checker p env) t.content = true) :
    genCount (runLoop p env xs).1 = xs.length ∧
      (runLoop p env xs).2 = ExitStatus.normal := by
  induction xs with
  | nil => exact ⟨rfl, rfl⟩
  | cons x rest ih =>
    obtain ⟨t, ht, hs⟩ := h x (List.mem_cons_self x rest)
    have hstep := processDialog_safe p env x.1 x.2 t ht hs
    obtain ⟨ih1, ih2⟩ := ih (fun y hy => h y (List.mem_cons_of_mem x hy))
    rw [runLoop_cons_ok hstep]
    refine ⟨?_, ih2⟩
    rw [genCount_append, genCount_okStepEvents, ih1, List.length_cons]
    omega

/-- If some dialog's first turn is flagged unsafe, the run does not end
normally and the generation count stays below that dialog's index. -/
lemma runLoop_unsafe_at (p : Params) (env : Env) :
    ∀ (xs : List (Dialog × List Int)) (i : Nat) (hi : i < xs.length) (u : Turn),
    (xs.get ⟨i, hi⟩).1.head? = some u →
    areSafe (get_safety_checker p env) u.content = false →
    genCount (runLoop p env xs).1 ≤ i ∧
      (runLoop p env xs).2.isNonzero = true := by
  intro xs
  induction xs with
  | nil => intro i hi; simp at hi
  | cons x rest ih =>
    intro i hi u hu hflag
    cases i with
    | zero =>
      have hstep := processDialog_flagged p env x.1 x.2 u hu hflag
      rw [runLoop_cons_exit hstep]
      refine ⟨?_, rfl⟩
      show genCount (unsafeInputEvents (get_safety_checker p env) u.content) ≤ 0
      exact Nat.le_of_eq (genCount_unsafeInputEvents _ _)
    | succ j =>
      have hj : j < rest.length := Nat.lt_of_succ_lt_succ (by simpa using hi)
      have hu2 : (rest.get ⟨j, hj⟩).1.head? = some u := by simpa using hu
      obtain ⟨ihc, ihs⟩ := ih j hj u hu2 hflag
      cases hp : processDialog p env x.1 x.2 with
      | ok evs =>
        rw [runLoop_cons_ok hp]
        refine ⟨?_, ihs⟩
        rw [genCount_append, genCount_of_ok hp]
        omega
      | exit evs =>
        rw [runLoop_cons_exit hp]
        have h0 : genCount evs = 0 := by
          have hno : (processDialog p env x.1 x.2).isOk = false := by
            rw [hp]; rfl
          have h1 := genCount_of_not_ok hno
          rwa [hp] at h1
        refine ⟨?_, rfl⟩
        show genCount evs ≤ j + 1
        omega
      | crash evs =>
        rw [runLoop_cons_crash hp]
        have h0 : genCount evs = 0 := by
          have hno : (processDialog p env x.1 x.2).isOk = false := by
            rw [hp]; rfl
          have h1 := genCount_of_not_ok hno
          rwa [hp] at h1
        refine ⟨?_, rfl⟩
        show genCount evs ≤ j + 1
        omega

/-- When the prompt file exists, `main` reads the dialogs from it, emits the
pre-loop events and defers to the dialog loop. -/
lemma mainRun_file (p : Params) (env : Env) (path : String)
    (hp : p.prompt_file = some path) (hf : env.fileExists path = true) :
    mainRun p env =
      (preEvents p (env.readDialogs path) ++
        (runLoop p env ((env.readDialogs path).zip
          ((env.readDialogs path).map env.apply_chat_template))).1,
       (runLoop p env ((env.readDialogs path).zip
          ((env.readDialogs path).map env.apply_chat_template))).2) := by
  simp [mainRun, resolveDialogs, hp, hf]

/-- The pre-loop events contain no generation call. -/
lemma genCount_preEvents (p : Params) (dialogs : List Dialog) :
    genCount (preEvents p dialogs) = 0 := by
  cases hm : p.peft_model <;> simp [preEvents, hm, genCount]

/-- Parameter vectors that build the same generation arguments yield the same
safe-iteration events. -/
lemma okStepEvents_congr (p q : Params) (env : Env) (chat : List Int)
    (checkers : List Checker) (prompt : String)
    (h2 : genArgsOf p chat = genArgsOf q chat) :
    okStepEvents p env chat checkers prompt =
      okStepEvents q env chat checkers prompt := by
  have ho : outputTextOf p env chat = outputTextOf q env chat := by
    unfold outputTextOf
    rw [h2]
  unfold okStepEvents
  rw [ho, h2]

/-- Parameter vectors with the same enabled checkers and the same generation
arguments yield the same step outcome. -/
lemma processDialog_congr (p q : Params) (env : Env) (dialog : Dialog)
    (chat : List Int)
    (h1 : get_safety_checker p env = get_safety_checker q env)
    (h2 : genArgsOf p chat = genArgsOf q chat) :
    processDialog p env dialog chat = processDialog q env dialog chat := by
  cases hd : dialog.head? with
  | none =>
    rw [processDialog_none p env dialog chat hd,
      processDialog_none q env dialog chat hd, h1]
  | some t =>
    by_cases hs : areSafe (get_safety_checker q env) t.content
    · have hsp : areSafe (get_safety_checker p env) t.content = true := by
        rw [h1]
        exact hs
      rw [processDialog_safe p env dialog chat t hd hsp,
        processDialog_safe q env dialog chat t hd hs, h1,
        okStepEvents_congr p q env chat _ _ h2]
    · have hsp : areSafe (get_safety_checker p env) t.content = false := by
        rw [h1]
        exact Bool.eq_false_iff.mpr hs
      rw [processDialog_flagged p env dialog chat t hd hsp,
        processDialog_flagged q env dialog chat t hd
          (Bool.eq_false_iff.mpr hs), h1]

/-- Parameter vectors with the same enabled checkers and the same generation
arguments yield the same loop trace and status. -/
lemma runLoop_congr (p q : Params) (env : Env)
    (h1 : get_safety_checker p env = get_safety_checker q env)
    (h2 : ∀ chat, genArgsOf p chat = genArgsOf q chat) :
    ∀ xs, runLoop p env xs = runLoop q env xs := by
  intro xs
  induction xs with
  | nil => rfl
  | cons x rest ih =>
    have hx := processDialog_congr p q env x.1 x.2 h1 (h2 x.2)
    cases hp : processDialog q env x.1 x.2 with
    | ok evs => rw [runLoop_cons_ok (hx.trans hp), runLoop_cons_ok hp, ih]
    | exit evs => rw [runLoop_cons_exit (hx.trans hp), runLoop_cons_exit hp]
    | crash evs => rw [runLoop_cons_crash (hx.trans hp), runLoop_cons_crash hp]

/-- Parameter vectors indistinguishable by dialog resolution, pre-loop events,
enabled checkers and generation arguments yield identical runs. -/
lemma mainRun_congr (p q : Params) (env : Env)
    (h0 : resolveDialogs p env = resolveDialogs q env)
    (h1 : get_safety_checker p env = get_safety_checker q env)
    (h2 : ∀ chat, genArgsOf p chat = genArgsOf q chat)
    (h3 : ∀ ds, preEvents p ds = preEvents q ds) :
    mainRun p env = mainRun q env := by
  unfold mainRun
  rw [h0]
  cases hr : resolveDialogs q env with
  | inl e => rfl
  | inr ds =>
    show (preEvents p ds ++ (runLoop p env (ds.zip
        (ds.map env.apply_chat_template))).1,
      (runLoop p env (ds.zip (ds.map env.apply_chat_template))).2) = _
    rw [h3 ds, runLoop_congr p q env h1 h2]

/-- C1, counterexample to the claim as stated: in a run whose prompt file
holds two dialogs, both with unsafe first turns, the second dialog's first
turn is flagged unsafe by the enabled checker, yet that checker's report for
it is never printed — the process aborted at the first dialog, so the claimed
"prints each failing checker's identifier and report" fails for the second
unsafe dialog. -/
theorem C1_counterexample :
    envTwoBad.readDialogs "prompts.json" =
      [dialogBad1, [⟨"user", "bad2"⟩]] ∧
    flagChecker.verdict "bad2" = false ∧
    (mainRun demoParams envTwoBad).2.isNonzero = true ∧
    Event.printLine (flagChecker.reportOf "bad2") ∉
      (mainRun demoParams envTwoBad).1 := by
  decide

/-- C1 (amended): when the loop reaches a dialog whose first turn's content is
flagged unsafe (every earlier dialog's iteration having continued), the run's
trace ends with that iteration's events — which include each failing checker's
identifier and report — the process exits with status 1, and that iteration
performs no generation; moreover for every dialog whose first turn is flagged
unsafe, whether reached or not, the run does not exit with status zero and
generation is invoked at most once per earlier dialog, hence never for that
dialog or any dialog after it. -/
theorem C1_unsafe_input_aborts_run (p : Params) (env : Env)
    (pre rest : List (Dialog × List Int)) (x : Dialog × List Int) (t : Turn)
    (hpre : ∀ y ∈ pre, (processDialog p env y.1 y.2).isOk = true)
    (ht : x.1.head? = some t)
    (hu : areSafe (get_safety_checker p env) t.content = false) :
    runLoop p env (pre ++ x :: rest) =
      (tracesOf p env pre ++
        unsafeInputEvents (get_safety_checker p env) t.content,
        ExitStatus.exited 1) ∧
    (∀ c ∈ get_safety_checker p env, c.verdict t.content = false →
      Event.printLine c.method ∈
          unsafeInputEvents (get_safety_checker p env) t.content ∧
        Event.printLine (c.reportOf t.content) ∈
          unsafeInputEvents (get_safety_checker p env) t.content) ∧
    genCount (unsafeInputEvents (get_safety_checker p env) t.content) = 0 ∧
    (∀ (xs : List (Dialog × List Int)) (i : Nat) (hi : i < xs.length)
      (u : Turn),
      (xs.get ⟨i, hi⟩).1.head? = some u →
      areSafe (get_safety_checker p env) u.content = false →
      genCount (runLoop p env xs).1 ≤ i ∧
        (runLoop p env xs).2.isNonzero = true) := by
  refine ⟨?_, ?_, genCount_unsafeInputEvents _ _, runLoop_unsafe_at p env⟩
  · rw [runLoop_append_of_ok p env pre (x :: rest) hpre,
      runLoop_cons_exit (processDialog_flagged p env x.1 x.2 t ht hu)]
  · intro c hc hflag
    have hmem : runCheck c t.content ∈
        safetyResults (get_safety_checker p env) t.content :=
      List.mem_map_of_mem _ hc
    have hfail : (runCheck c t.content).is_safe = false := hflag
    obtain ⟨h1, h2⟩ := failurePrints_mem hmem hfail
    constructor
    · simp only [unsafeInputEvents, List.mem_append, List.mem_cons]
      exact Or.inl (Or.inr (Or.inr h1))
    · simp only [unsafeInputEvents, List.mem_append, List.mem_cons]
      exact Or.inl (Or.inr (Or.inr h2))

/-- C1 witness: a run with a single unsafe dialog reaches the amended
conclusion at concrete inputs. -/
theorem C1_unsafe_input_aborts_run_witness :
    dialogBad1.head? = some ⟨"user", "bad1"⟩ ∧
    areSafe (get_safety_checker demoParams envOneBad) "bad1" = false ∧
    runLoop demoParams envOneBad [(dialogBad1, [1])] =
      (unsafeInputEvents (get_safety_checker demoParams envOneBad) "bad1",
        ExitStatus.exited 1) :=
  ⟨rfl, by decide,
    (C1_unsafe_input_aborts_run demoParams envOneBad [] [] (dialogBad1, [1])
      ⟨"user", "bad1"⟩ (fun y hy => absurd hy (List.not_mem_nil y)) rfl
      (by decide)).1⟩

/-- C2: when a reached dialog's input is safe but its generated output is
flagged unsafe, the loop does not terminate there: the run's trace continues
with the remaining dialogs' events and the exit status is decided by the
remainder, while each failing checker's identifier and report for the output
appear in that iteration's events. -/
theorem C2_unsafe_output_does_not_abort (p : Params) (env : Env)
    (pre rest : List (Dialog × List Int)) (x : Dialog × List Int) (t : Turn)
    (hpre : ∀ y ∈ pre, (processDialog p env y.1 y.2).isOk = true)
    (ht : x.1.head? = some t)
    (hs : areSafe (get_safety_checker p env) t.content = true)
    (ho : areSafe (get_safety_checker p env) (outputTextOf p env x.2) = false) :
    runLoop p env (pre ++ x :: rest) =
      (tracesOf p env pre ++
        (okStepEvents p env x.2 (get_safety_checker p env) t.content ++
          (runLoop p env rest).1),
        (runLoop p env rest).2) ∧
    (∀ c ∈ get_safety_checker p env,
      c.verdict (outputTextOf p env x.2) = false →
      Event.printLine c.method ∈
          okStepEvents p env x.2 (get_safety_checker p env) t.content ∧
        Event.printLine (c.reportOf (outputTextOf p env x.2)) ∈
          okStepEvents p env x.2 (get_safety_checker p env) t.content) := by
  constructor
  · rw [runLoop_append_of_ok p env pre (x :: rest) hpre,
      runLoop_cons_ok (processDialog_safe p env x.1 x.2 t ht hs)]
  · intro c hc hflag
    have hmem : runCheck c (outputTextOf p env x.2) ∈
        safetyResults (get_safety_checker p env) (outputTextOf p env x.2) :=
      List.mem_map_of_mem _ hc
    have hfail : (runCheck c (outputTextOf p env x.2)).is_safe = false := hflag
    obtain ⟨h1, h2⟩ := failurePrints_mem hmem hfail
    constructor
    · simp only [okStepEvents, ho, if_false, Bool.false_eq_true,
        List.mem_append, List.mem_cons]
      exact Or.inr (Or.inr h1)
    · simp only [okStepEvents, ho, if_false, Bool.false_eq_true,
        List.mem_append, List.mem_cons]
      exact Or.inr (Or.inr h2)

/-- C2 witness: a run whose single dialog has a safe prompt and a flagged
output reaches the conclusion at concrete inputs. -/
theorem C2_unsafe_output_does_not_abort_witness :
    dialogHello.head? = some ⟨"user", "hello"⟩ ∧
    areSafe (get_safety_checker demoParams envBadOut) "hello" = true ∧
    areSafe (get_safety_checker demoParams envBadOut)
      (outputTextOf demoParams envBadOut [1]) = false ∧
    Event.printLine
        (flagChecker.reportOf (outputTextOf demoParams envBadOut [1])) ∈
      okStepEvents demoParams envBadOut [1]
        (get_safety_checker demoParams envBadOut) "hello" :=
  ⟨rfl, by decide, by decide,
    ((C2_unsafe_output_does_not_abort demoParams envBadOut [] []
        (dialogHello, [1]) ⟨"user", "hello"⟩
        (fun y hy => absurd hy (List.not_mem_nil y)) rfl (by decide)
        (by decide)).2 flagChecker (List.mem_cons_self flagChecker [])
      (by decide)).2⟩

/-- C3: screening produces one result per enabled checker (none is skipped on
an earlier failure — on a reached dialog every enabled checker's invocation
event is in the step's trace, for the prompt and, when generation ran, for the
output), the aggregate verdict is the AND of the individual verdicts, and with
zero enabled checkers every text — input or output — is vacuously safe. -/
theorem C3_aggregate_and_no_short_circuit :
    (∀ (checkers : List Checker) (text : String),
      (safetyResults checkers text).length = checkers.length ∧
      areSafe checkers text = checkers.all (fun c => c.verdict text)) ∧
    (∀ text : String, areSafe [] text = true) ∧
    (∀ (p : Params) (env : Env),
      p.enable_azure_content_safety = false →
      p.enable_sensitive_topics = false →
      p.enable_saleforce_content_safety = false →
      p.enable_llamaguard_content_safety = false →
      get_safety_checker p env = [] ∧
      ∀ text : String, areSafe (get_safety_checker p env) text = true) ∧
    (∀ (p : Params) (env : Env) (dialog : Dialog) (chat : List Int) (t : Turn),
      dialog.head? = some t →
      (∀ c ∈ get_safety_checker p env,
        Event.checkerCall c.method t.content ∈
          (processDialog p env dialog chat).events) ∧
      (areSafe (get_safety_checker p env) t.content = true →
        ∀ c ∈ get_safety_checker p env,
          Event.checkerCall c.method (outputTextOf p env chat) ∈
            (processDialog p env dialog chat).events)) := by
  refine ⟨fun checkers text => ⟨List.length_map _ _, areSafe_eq_all _ _⟩,
    fun text => rfl, ?_, ?_⟩
  · intro p env h1 h2 h3 h4
    have hempty : get_safety_checker p env = [] := by
      simp [get_safety_checker, h1, h2, h3, h4]
    exact ⟨hempty, fun text => by rw [hempty]; rfl⟩
  · intro p env dialog chat t ht
    constructor
    · intro c hc
      have hcall : Event.checkerCall c.method t.content ∈
          checkCallEvents (get_safety_checker p env) t.content :=
        List.mem_map_of_mem _ hc
      by_cases hs : areSafe (get_safety_checker p env) t.content
      · rw [processDialog_safe p env dialog chat t ht hs]
        simp only [okStepEvents, StepResult.events, List.mem_append]
        exact Or.inl (Or.inl (Or.inl hcall))
      · rw [processDialog_flagged p env dialog chat t ht
          (Bool.eq_false_iff.mpr hs)]
        simp only [unsafeInputEvents, StepResult.events, List.mem_append]
        exact Or.inl (Or.inl hcall)
    · intro hs c hc
      have hcall : Event.checkerCall c.method (outputTextOf p env chat) ∈
          checkCallEvents (get_safety_checker p env)
            (outputTextOf p env chat) :=
        List.mem_map_of_mem _ hc
      rw [processDialog_safe p env dialog chat t ht hs]
      simp only [okStepEvents, StepResult.events, List.mem_append]
      exact Or.inl (Or.inr hcall)

/-- C3 witness: the aggregate behaviour evaluated at concrete inputs — one
result for the single enabled checker, vacuous safety with all checkers
disabled, and the checker-invocation event present in a concrete step. -/
theorem C3_aggregate_and_no_short_circuit_witness :
    dialogBad1.head? = some ⟨"user", "bad1"⟩ ∧
    (safetyResults [flagChecker] "any").length = 1 ∧
    areSafe (get_safety_checker pNoChecks envOneBad) "bad1" = true ∧
    Event.checkerCall "checkerA" "bad1" ∈
      (processDialog demoParams envOneBad dialogBad1 [1]).events :=
  ⟨rfl,
    (C3_aggregate_and_no_short_circuit.1 [flagChecker] "any").1,
    (C3_aggregate_and_no_short_circuit.2.2.1 pNoChecks envOneBad
      rfl rfl rfl rfl).2 "bad1",
    (C3_aggregate_and_no_short_circuit.2.2.2 demoParams envOneBad dialogBad1
      [1] ⟨"user", "bad1"⟩ rfl).1 flagChecker
      (List.mem_cons_self flagChecker [])⟩

/-- C4: the `min_new_tokens` command-line value is never passed to the
generation call — the `model.generate` keyword arguments are unchanged by it,
and two runs identical except for `min_new_tokens` produce identical traces
(including identical generation-call arguments) and identical exit status.
This refutes the claim that the minimum-new-tokens value is passed to the
Model Runtime's generation operation. -/
theorem C4_min_new_tokens_never_passed :
    ∀ (p : Params) (env : Env) (a b : Nat) (chat : List Int),
    genArgsOf { p with min_new_tokens := a } chat = genArgsOf p chat ∧
    mainRun { p with min_new_tokens := a } env =
      mainRun { p with min_new_tokens := b } env :=
  fun p env a b _ =>
    ⟨rfl,
      mainRun_congr { p with min_new_tokens := a }
        { p with min_new_tokens := b } env rfl rfl (fun _ => rfl)
        (fun _ => rfl)⟩

/-- C5: on a reached dialog whose first turn's content every enabled checker
reports safe, the iteration performs exactly one generation call — never zero,
never two — and a run whose dialogs are all non-empty and input-safe performs
exactly one generation per dialog and exits normally. -/
theorem C5_generation_exactly_once :
    (∀ (p : Params) (env : Env) (dialog : Dialog) (chat : List Int) (t : Turn),
      dialog.head? = some t →
      areSafe (get_safety_checker p env) t.content = true →
      processDialog p env dialog chat =
        StepResult.ok
          (okStepEvents p env chat (get_safety_checker p env) t.content) ∧
      genCount
        (okStepEvents p env chat (get_safety_checker p env) t.content) = 1) ∧
    (∀ (p : Params) (env : Env) (xs : List (Dialog × List Int)),
      (∀ x ∈ xs, ∃ t, x.1.head? = some t ∧
        areSafe (get_safety_checker p env) t.content = true) →
      genCount (runLoop p env xs).1 = xs.length ∧
        (runLoop p env xs).2 = ExitStatus.normal) :=
  ⟨fun p env dialog chat t ht hs =>
    ⟨processDialog_safe p env dialog chat t ht hs,
      genCount_okStepEvents p env chat (get_safety_checker p env) t.content⟩,
    runLoop_all_safe⟩

/-- C5 witness: a two-dialog all-safe run generates exactly twice and exits
normally. -/
theorem C5_generation_exactly_once_witness :
    genCount (runLoop demoParams envSafe
        [(dialogHello, [1]), ([⟨"user", "word"⟩], [1])]).1 = 2 ∧
      (runLoop demoParams envSafe
        [(dialogHello, [1]), ([⟨"user", "word"⟩], [1])]).2 =
        ExitStatus.normal :=
  C5_generation_exactly_once.2 demoParams envSafe
    [(dialogHello, [1]), ([⟨"user", "word"⟩], [1])]
    (fun x hx => by
      cases hx with
      | head => exact ⟨⟨"user", "hello"⟩, rfl, by decide⟩
      | tail _ h2 =>
        cases h2 with
        | head => exact ⟨⟨"user", "word"⟩, rfl, by decide⟩
        | tail _ h3 => cases h3)

/-- C6: a provided prompt-file path that does not exist makes the run fail at
the existence assertion — terminating with the missing-file error and a
non-zero status, with an empty trace and in particular no model load. -/
theorem C6_missing_prompt_file_aborts (p : Params) (env : Env) (path : String)
    (hp : p.prompt_file = some path) (hf : env.fileExists path = false) :
    mainRun p env =
      ([], ExitStatus.assertFailed
        ("Provided Prompt file does not exist " ++ path)) ∧
    (mainRun p env).2.isNonzero = true ∧
    hasModelLoad (mainRun p env).1 = false := by
  have h1 : mainRun p env =
      ([], ExitStatus.assertFailed
        ("Provided Prompt file does not exist " ++ path)) := by
    simp [mainRun, resolveDialogs, hp, hf]
  refine ⟨h1, ?_, ?_⟩
  · rw [h1]
    rfl
  · rw [h1]
    rfl

/-- C6 witness: the missing-prompt-file abort evaluated at a concrete run. -/
theorem C6_missing_prompt_file_aborts_witness :
    demoParams.prompt_file = some "prompts.json" ∧
    envMissingFile.fileExists "prompts.json" = false ∧
    mainRun demoParams envMissingFile =
      ([], ExitStatus.assertFailed
        "Provided Prompt file does not exist prompts.json") :=
  ⟨rfl, rfl,
    (C6_missing_prompt_file_aborts demoParams envMissingFile "prompts.json"
      rfl rfl).1⟩

/-- C7: with no prompt file, piped stdin that fails to parse as JSON makes
the run print the parse diagnostic and exit with status 1, and absent piped
input makes it print the no-input diagnostic and exit with status 1 — in both
cases with no model load in the trace. -/
theorem C7_no_input_exits (p : Params) (env : Env)
    (hp : p.prompt_file = none) :
    (env.stdinIsTTY = false → env.parseJson env.stdinInput = none →
      mainRun p env =
        ([Event.printLine
            "Could not parse json from stdin. Please provide a json file with the user prompts. Exiting."],
          ExitStatus.exited 1) ∧
      (mainRun p env).2.isNonzero = true ∧
      hasModelLoad (mainRun p env).1 = false) ∧
    (env.stdinIsTTY = true →
      mainRun p env =
        ([Event.printLine "No user prompt provided. Exiting."],
          ExitStatus.exited 1) ∧
      (mainRun p env).2.isNonzero = true ∧
      hasModelLoad (mainRun p env).1 = false) := by
  constructor
  · intro ht hj
    have h1 : mainRun p env =
        ([Event.printLine
            "Could not parse json from stdin. Please provide a json file with the user prompts. Exiting."],
          ExitStatus.exited 1) := by
      simp [mainRun, resolveDialogs, hp, ht, hj]
    refine ⟨h1, ?_, ?_⟩
    · rw [h1]
      rfl
    · rw [h1]
      rfl
  · intro ht
    have h1 : mainRun p env =
        ([Event.printLine "No user prompt provided. Exiting."],
          ExitStatus.exited 1) := by
      simp [mainRun, resolveDialogs, hp, ht]
    refine ⟨h1, ?_, ?_⟩
    · rw [h1]
      rfl
    · rw [h1]
      rfl

/-- C7 witness: the parse-failure exit and the no-input exit evaluated at
concrete runs. -/
theorem C7_no_input_exits_witness :
    pNoFile.prompt_file = none ∧
    envStdinBad.stdinIsTTY = false ∧
    envStdinBad.parseJson envStdinBad.stdinInput = none ∧
    mainRun pNoFile envStdinBad =
      ([Event.printLine
          "Could not parse json from stdin. Please provide a json file with the user prompts. Exiting."],
        ExitStatus.exited 1) ∧
    envTTY.stdinIsTTY = true ∧
    mainRun pNoFile envTTY =
      ([Event.printLine "No user prompt provided. Exiting."],
        ExitStatus.exited 1) :=
  ⟨rfl, rfl, rfl,
    ((C7_no_input_exits pNoFile envStdinBad rfl).1 rfl rfl).1,
    rfl,
    ((C7_no_input_exits pNoFile envTTY rfl).2 rfl).1⟩

/-- C8: on a reached dialog the text screened as the user prompt is exactly
the first turn's content — the step's trace begins with the enabled checkers'
invocation events, all on that content — and the iteration generates iff
every enabled checker reports that content safe. -/
theorem C8_screens_first_turn_content (p : Params) (env : Env)
    (dialog : Dialog) (chat : List Int) (t : Turn)
    (ht : dialog.head? = some t) :
    (∃ tail, (processDialog p env dialog chat).events =
      checkCallEvents (get_safety_checker p env) t.content ++ tail) ∧
    (0 < genCount (processDialog p env dialog chat).events ↔
      areSafe (get_safety_checker p env) t.content = true) := by
  by_cases hs : areSafe (get_safety_checker p env) t.content
  · rw [processDialog_safe p env dialog chat t ht hs]
    constructor
    · refine ⟨[Event.printLine "User prompt deemed safe.",
        Event.printLine ("User prompt:\n " ++ t.content),
        Event.printLine "\n==================================\n",
        Event.generateCall (genArgsOf p chat)] ++
        (checkCallEvents (get_safety_checker p env)
            (outputTextOf p env chat) ++
          (if areSafe (get_safety_checker p env) (outputTextOf p env chat) then
            [Event.printLine "User input and model output deemed safe.",
             Event.printLine ("Model output:\n" ++ outputTextOf p env chat),
             Event.printLine "\n==================================\n"]
          else
            Event.printLine "Model output deemed unsafe." ::
              failurePrints (safetyResults (get_safety_checker p env)
                (outputTextOf p env chat)))), ?_⟩
      simp [okStepEvents, StepResult.events, List.append_assoc]
    · have hg := genCount_okStepEvents p env chat (get_safety_checker p env)
        t.content
      constructor
      · intro _
        exact hs
      · intro _
        show 0 < genCount
          (okStepEvents p env chat (get_safety_checker p env) t.content)
        omega
  · rw [processDialog_flagged p env dialog chat t ht (Bool.eq_false_iff.mpr hs)]
    constructor
    · refine ⟨(Event.printLine "User prompt deemed unsafe." ::
          failurePrints (safetyResults (get_safety_checker p env)
            t.content)) ++
        [Event.printLine "Skipping the inferece as the prompt is not safe."],
        ?_⟩
      simp [unsafeInputEvents, StepResult.events, List.append_assoc]
    · have h0 := genCount_unsafeInputEvents (get_safety_checker p env)
        t.content
      constructor
      · intro hlt
        have hlt2 : 0 < genCount
            (unsafeInputEvents (get_safety_checker p env) t.content) := hlt
        exact absurd h0 (Nat.pos_iff_ne_zero.mp hlt2)
      · intro hcon
        exact absurd hcon hs

/-- C8 witness: on a concrete flagged dialog the step's trace starts with the
checker invocation on the first turn's content and no generation happens. -/
theorem C8_screens_first_turn_content_witness :
    dialogBad1.head? = some ⟨"user", "bad1"⟩ ∧
    (0 < genCount (processDialog demoParams envOneBad dialogBad1 [1]).events ↔
      areSafe (get_safety_checker demoParams envOneBad) "bad1" = true) :=
  ⟨rfl,
    (C8_screens_first_turn_content demoParams envOneBad dialogBad1 [1]
      ⟨"user", "bad1"⟩ rfl).2⟩

/-- C9: the `safety_score_threshold` parameter never influences behaviour —
two runs identical in everything but the threshold produce the same trace
(checker invocations, verdicts, prints, generation calls) and the same exit
status. -/
theorem C9_threshold_has_no_effect :
    ∀ (p : Params) (env : Env) (a : Rat),
    mainRun { p with safety_score_threshold := a } env = mainRun p env :=
  fun p env a =>
    mainRun_congr { p with safety_score_threshold := a } p env rfl rfl
      (fun _ => rfl) (fun _ => rfl)

/-- C10: screening a dialog's input requires a first turn: on an empty dialog
the iteration ends in the uncaught `IndexError` from `dialogs[idx][0]`, and
under the precondition that every dialog in the list is non-empty the run
never ends with an `IndexError` — the index-error outcome is unreachable. -/
theorem C10_nonempty_dialog_required :
    (∀ (p : Params) (env : Env) (chat : List Int),
      (processDialog p env ([] : Dialog) chat).isCrash = true) ∧
    (∀ (p : Params) (env : Env) (xs : List (Dialog × List Int)),
      (∀ x ∈ xs, x.1 ≠ ([] : Dialog)) →
      (runLoop p env xs).2 ≠ ExitStatus.indexError) := by
  constructor
  · intro p env chat
    rw [processDialog_none p env [] chat rfl]
    by_cases he : (get_safety_checker p env).isEmpty <;>
      simp [he, StepResult.isCrash]
  · intro p env xs
    induction xs with
    | nil =>
      intro _ hcon
      exact ExitStatus.noConfusion hcon
    | cons x rest ih =>
      intro h
      have hx := processDialog_not_crash p env x.1 x.2
        (h x (List.mem_cons_self x rest))
      cases hp : processDialog p env x.1 x.2 with
      | ok evs =>
        rw [runLoop_cons_ok hp]
        exact ih (fun y hy => h y (List.mem_cons_of_mem x hy))
      | exit evs =>
        rw [runLoop_cons_exit hp]
        intro hcon
        exact ExitStatus.noConfusion hcon
      | crash evs =>
        rw [hp] at hx
        simp [StepResult.isCrash] at hx

/-- C10 witness: a concrete empty dialog crashes the step, and a concrete run
of non-empty dialogs never ends in an index error. -/
theorem C10_nonempty_dialog_required_witness :
    (processDialog demoParams envOneBad ([] : Dialog) [1]).isCrash = true ∧
    (runLoop demoParams envSafe [(dialogHello, [1])]).2 ≠
      ExitStatus.indexError :=
  ⟨C10_nonempty_dialog_required.1 demoParams envOneBad [1],
    C10_nonempty_dialog_required.2 demoParams envSafe [(dialogHello, [1])]
      (fun x hx => by
        cases hx with
        | head => exact (by decide)
        | tail _ h2 => cases h2)⟩

end ChatCompletion
